import Mathlib

/-!
Shallow embedding of the simulation core of `src/script.js` (a grid-based
snake game): game state, direction queue, occupancy set, food spawner,
grid growth controller and the step engine, together with theorems about
the spec's claims.

Modelling conventions, each taken from the source:
* JS `{x, y}` position/direction objects become the structure `Pos` with
  `Int` coordinates (candidate heads can be `-1`).
* The JS `Set` of `posKey` strings (`"x,y"`) is modelled as a
  `Finset Pos`: `posKey` is injective on integer pairs (the printed `x`
  part contains no comma), and `Set.add`/`Set.delete` become
  `Finset.insert`/`Finset.erase`.
* `Math.random()` results are modelled as an explicit list of rational
  pairs consumed by the food spawner; the spawner's unbounded
  `while (true)` retry loop becomes structural recursion on that list,
  returning `none` when the list is exhausted (the divergent case).
* The JS `| 0` coercion is truncation toward zero followed by wrapping
  into a signed 32-bit integer; both are modelled exactly (`jsTrunc`).
* The double literal `0.4` in the growth trigger is modelled as the exact
  rational `4/10`: for every grid size in `{8, 10, ..., 36}` and every
  integer snake length the IEEE-double comparison
  `length >= grid ** 2 * 0.4` agrees with the exact rational comparison
  (checked exhaustively; the products `100 * 0.4` and `400 * 0.4` round
  to exactly `40.0` and `160.0`, and all other thresholds are at least
  `0.4` away from an integer while the rounding error is below `1e-12`).
* Wall-clock timestamps (`performance.now()`) are passed in as a natural
  number parameter `t`; render-only fields (`foodFxAt`, `eatWave`,
  `shakeUntil`, `stepMs`, canvas state) are omitted, as no claim
  mentions them.
-/

namespace ChilledSnake

/-- An `{x, y}` object of the source: a cell or a direction vector. -/
structure Pos where
  x : Int
  y : Int
deriving DecidableEq, Repr

instance : Inhabited Pos := ⟨⟨0, 0⟩⟩

/-- The occupancy set built from a snake list, as in the source's
`state.snake.forEach(p => state.occupied.add(posKey(p.x, p.y)))`. -/
def posSet (l : List Pos) : Finset Pos := l.toFinset

/-- Wrap an integer into the signed 32-bit range, the final effect of the
JS `| 0` coercion. -/
def toInt32 (n : Int) : Int := (n + 2 ^ 31) % 2 ^ 32 - 2 ^ 31

/-- The JS `| 0` coercion on a (finite) numeric value: truncation toward
zero, then 32-bit wrapping. -/
def jsTrunc (q : ℚ) : Int := toInt32 (if q < 0 then -⌊-q⌋ else ⌊q⌋)

/-- The simulation state of `src/script.js` (`const state = {...}`),
restricted to the fields the simulation core reads or writes. -/
structure GameState where
  grid : Nat
  snake : List Pos
  dir : Pos
  queuedDirs : List Pos
  food : Pos
  score : Nat
  gameOver : Bool
  started : Bool
  ateOnLastStep : Bool
  occupied : Finset Pos
  endedAt : Option Nat
deriving DecidableEq

/-- `spawnFood` of the source: repeatedly draw `x = (Math.random()*grid)|0`,
`y` likewise, until the cell is unoccupied. The random draws are the
explicit list `rands`; exhausting it models the loop not terminating. -/
def spawnFood (grid : Nat) (occupied : Finset Pos) : List (ℚ × ℚ) → Option Pos
  | [] => none
  | r :: rs =>
    let x := jsTrunc (r.1 * grid)
    let y := jsTrunc (r.2 * grid)
    if (⟨x, y⟩ : Pos) ∉ occupied then some ⟨x, y⟩
    else spawnFood grid occupied rs

/-- The direction the source's `queueDir` validates against:
`queuedDirs[queuedDirs.length - 1]` when the queue is non-empty,
otherwise `state.dir`. -/
def lastDir (s : GameState) : Pos := s.queuedDirs.getLast?.getD s.dir

/-- `queueDir(nd)` of the source: reject an instant reverse of `lastDir`,
reject a duplicate of `lastDir`, reject when two directions are already
queued; otherwise push. -/
def queueDir (s : GameState) (nd : Pos) : GameState :=
  if (lastDir s).x + nd.x = 0 ∧ (lastDir s).y + nd.y = 0 then s
  else if (lastDir s).x = nd.x ∧ (lastDir s).y = nd.y then s
  else if 2 ≤ s.queuedDirs.length then s
  else { s with queuedDirs := s.queuedDirs ++ [nd] }

/-- `consumeDirectionQueue()` of the source: shift the oldest queued
direction into `state.dir` when the queue is non-empty. -/
def consumeDirectionQueue (s : GameState) : GameState :=
  match s.queuedDirs with
  | [] => s
  | d :: rest => { s with dir := d, queuedDirs := rest }

/-- `nextHead()` of the source: current head plus active direction. -/
def nextHead (s : GameState) : Pos :=
  let head := s.snake.headI
  ⟨head.x + s.dir.x, head.y + s.dir.y⟩

/-- `isWallCollision(nx, ny)` of the source:
`nx < 0 || ny < 0 || nx >= state.grid || ny >= state.grid`. -/
def isWallCollision (s : GameState) (nx ny : Int) : Bool :=
  decide (nx < 0) || decide (ny < 0) ||
    decide ((s.grid : Int) ≤ nx) || decide ((s.grid : Int) ≤ ny)

/-- `isSelfCollision(nx, ny, willEat)` of the source: hit the occupancy
set, except that moving onto the current tail cell while not eating is
not a collision. (The source's `!state.occupied` null guard is vacuous
here: `occupied` is always a set in the model.) -/
def isSelfCollision (s : GameState) (nx ny : Int) (willEat : Bool) : Bool :=
  let hits := decide ((⟨nx, ny⟩ : Pos) ∈ s.occupied)
  match s.snake.getLast? with
  | some tl => if !willEat && decide (tl.x = nx) && decide (tl.y = ny) then false else hits
  | none => hits

/-- `growGridIfNeeded()` of the source: when
`snake.length >= grid ** 2 * 0.4 && grid < 36`, add 2 to the grid size,
shift every snake cell by `(+1, +1)` and rebuild the occupancy set. -/
def growGridIfNeeded (s : GameState) : GameState :=
  if ((s.grid : ℚ) ^ 2 * (4 / 10) ≤ (s.snake.length : ℚ)) ∧ s.grid < 36 then
    let snake := s.snake.map fun p => (⟨p.x + 1, p.y + 1⟩ : Pos)
    { s with grid := s.grid + 2, snake := snake, occupied := posSet snake }
  else s

/-- The state at the moment `step()` computes its candidate head: the
"ate" flag cleared and the direction queue consumed. -/
def preStep (s : GameState) : GameState :=
  consumeDirectionQueue { s with ateOnLastStep := false }

/-- `step()`'s candidate head. -/
def candidateHead (s : GameState) : Pos := nextHead (preStep s)

/-- `step()`'s `willEat` flag: candidate head equals the food cell. -/
def willEatFlag (s : GameState) : Bool :=
  decide ((candidateHead s).x = (preStep s).food.x) &&
    decide ((candidateHead s).y = (preStep s).food.y)

/-- `step()`'s collision test on the candidate head. -/
def collides (s : GameState) : Bool :=
  isWallCollision (preStep s) (candidateHead s).x (candidateHead s).y ||
    isSelfCollision (preStep s) (candidateHead s).x (candidateHead s).y (willEatFlag s)

/-- The state right after `step()`'s "move head" block: candidate head
unshifted into the snake and inserted into the occupancy set. -/
def moveState (s : GameState) : GameState :=
  { preStep s with
    snake := candidateHead s :: (preStep s).snake,
    occupied := insert (candidateHead s) (preStep s).occupied }

/-- The state after `step()`'s eat block up to the growth controller:
score incremented, then `growGridIfNeeded` applied. -/
def eatState (s : GameState) : GameState :=
  growGridIfNeeded { moveState s with score := (moveState s).score + 1 }

/-- `step()` of the source, one discrete tick: clear the ate flag,
consume the queue, compute the candidate head and `willEat`; on a
collision set `gameOver` and the end timestamp and return; otherwise
unshift the head into the snake and occupancy set (`moveState`), then
either (eat) bump the score, run the growth controller (`eatState`) and
respawn food, or (move) pop the tail from the snake and the occupancy
set. `t` is the current wall-clock time, `rands` the random stream for
the food spawner; `none` models the spawner's retry loop not returning. -/
def step (rands : List (ℚ × ℚ)) (t : Nat) (s0 : GameState) : Option GameState :=
  if collides s0 then
    some { preStep s0 with gameOver := true, endedAt := some t }
  else if willEatFlag s0 then
    match spawnFood (eatState s0).grid (eatState s0).occupied rands with
    | some f => some { eatState s0 with food := f, ateOnLastStep := true }
    | none => none
  else
    match (moveState s0).snake.getLast? with
    | some tl => some { moveState s0 with
        snake := (moveState s0).snake.dropLast,
        occupied := (moveState s0).occupied.erase tl }
    | none => some { moveState s0 with snake := (moveState s0).snake.dropLast }

/-- The fresh snake of both `resetGame()` and `resetToWelcome()`. -/
def initSnake : List Pos := [⟨3, 3⟩, ⟨2, 3⟩, ⟨1, 3⟩]

/-- `resetGame()` of the source (player-initiated start/restart): grid 8,
fresh snake, direction `(1,0)`, empty queue, rebuilt occupancy set,
fresh food, score 0, `started`, not `gameOver`. (The recorded
wall-clock `runStartAt` is render/persistence-only and not modelled.) -/
def resetGame (rands : List (ℚ × ℚ)) : Option GameState :=
  match spawnFood 8 (posSet initSnake) rands with
  | some f => some {
      grid := 8, snake := initSnake, dir := ⟨1, 0⟩, queuedDirs := [],
      food := f, score := 0, gameOver := false, started := true,
      ateOnLastStep := false, occupied := posSet initSnake, endedAt := none }
  | none => none

/-- `resetToWelcome()` of the source (initial welcome-idle run): same
reset mechanics but grid 10 and `started = false`. -/
def resetToWelcome (rands : List (ℚ × ℚ)) : Option GameState :=
  match spawnFood 10 (posSet initSnake) rands with
  | some f => some {
      grid := 10, snake := initSnake, dir := ⟨1, 0⟩, queuedDirs := [],
      food := f, score := 0, gameOver := false, started := false,
      ateOnLastStep := false, occupied := posSet initSnake, endedAt := none }
  | none => none

/-- A typical mid-run Playing state on the post-reset grid: fresh snake
shape, food parked away from the action. Used as a base for concrete
test states. -/
def baseState : GameState := {
  grid := 8, snake := initSnake, dir := ⟨1, 0⟩, queuedDirs := [],
  food := ⟨5, 5⟩, score := 0, gameOver := false, started := true,
  ateOnLastStep := false, occupied := posSet initSnake, endedAt := none }

/-- A run actually reachable from `resetGame`: eat the food at `(4,3)`,
then turn down, left and up so that the head moves onto the cell the
tail vacates on the same tick (food is far away at `(0,7)` throughout). -/
def tailChaseTrace : Option GameState :=
  (resetGame [(1/2, 3/8)]).bind fun a =>
  (step [(0, 7/8)] 1 a).bind fun b =>
  (step [] 2 (queueDir b ⟨0, 1⟩)).bind fun c =>
  (step [] 3 (queueDir c ⟨-1, 0⟩)).bind fun d =>
  step [] 4 (queueDir d ⟨0, -1⟩)

/-- A Playing state one tick from a wall: head at `(7,3)` moving right on
the 8×8 grid, so the candidate head `(8,3)` is out of bounds. -/
def wallState : GameState := { baseState with
  snake := [⟨7, 3⟩, ⟨6, 3⟩, ⟨5, 3⟩],
  occupied := posSet [⟨7, 3⟩, ⟨6, 3⟩, ⟨5, 3⟩] }

/-- A mid-run Playing state with a nonzero score and a grown grid, one
tick from the left wall (head at `(0,0)` moving left). -/
def scoredWallState : GameState := { baseState with
  grid := 12, snake := [⟨0, 0⟩, ⟨1, 0⟩, ⟨2, 0⟩], dir := ⟨-1, 0⟩,
  score := 5, occupied := posSet [⟨0, 0⟩, ⟨1, 0⟩, ⟨2, 0⟩] }

/-- A state with one direction already queued (down), while the active
direction is still right. -/
def queuedState : GameState := { baseState with queuedDirs := [⟨0, 1⟩] }

/-- A state whose snake is long enough (26 ≥ 0.4·8² = 25.6) to trigger
the grid growth controller. -/
def denseState : GameState := { baseState with
  snake := List.replicate 26 ⟨0, 0⟩,
  occupied := posSet (List.replicate 26 ⟨0, 0⟩) }

/-- The scenario state of the spec: fresh snake, food directly ahead at
`(4,3)`. -/
def eatScenario : GameState := { baseState with food := ⟨4, 3⟩ }

/-- The state after one `step()` from `eatScenario` with the next random
draw `(0,0)`: snake grown to length 4, score 1, food respawned at
`(0,0)`. -/
def eatScenarioPost : GameState := {
  grid := 8, snake := [⟨4, 3⟩, ⟨3, 3⟩, ⟨2, 3⟩, ⟨1, 3⟩], dir := ⟨1, 0⟩,
  queuedDirs := [], food := ⟨0, 0⟩, score := 1, gameOver := false,
  started := true, ateOnLastStep := true,
  occupied := posSet [⟨4, 3⟩, ⟨3, 3⟩, ⟨2, 3⟩, ⟨1, 3⟩], endedAt := none }

/-- The four unit direction vectors the input handlers can produce
(arrow keys / WASD / swipes). -/
def isUnitDir (d : Pos) : Prop :=
  d = ⟨1, 0⟩ ∨ d = ⟨-1, 0⟩ ∨ d = ⟨0, 1⟩ ∨ d = ⟨0, -1⟩

/-- `b` does not exactly reverse `a` (component sums not both zero). -/
def noReverse (a b : Pos) : Prop := ¬(a.x + b.x = 0 ∧ a.y + b.y = 0)

/-- The pending direction chain: the active direction followed by the
queued directions, oldest first. -/
def dirChain (s : GameState) : List Pos := s.dir :: s.queuedDirs

/-- Direction-queue sanity: every pending direction is a unit vector and
no two adjacent entries of the chain reverse each other. -/
def dirInv (s : GameState) : Prop :=
  isUnitDir s.dir ∧ (∀ d ∈ s.queuedDirs, isUnitDir d) ∧
    List.Chain' noReverse (dirChain s)

/-- States reachable by the simulation: either reset entry point,
direction inputs (the handlers only ever queue unit vectors), and ticks. -/
inductive Reachable : GameState → Prop where
  | welcome (rands : List (ℚ × ℚ)) (s : GameState)
      (h : resetToWelcome rands = some s) : Reachable s
  | start (rands : List (ℚ × ℚ)) (s : GameState)
      (h : resetGame rands = some s) : Reachable s
  | input (s : GameState) (nd : Pos) (h : Reachable s) (hu : isUnitDir nd) :
      Reachable (queueDir s nd)
  | tick (rands : List (ℚ × ℚ)) (t : Nat) (s s' : GameState)
      (h : Reachable s) (hs : step rands t s = some s') : Reachable s'

/-- The state produced by `resetGame` when the first random draw is
`(0,0)`. -/
def runStart : GameState := {
  grid := 8, snake := initSnake, dir := ⟨1, 0⟩, queuedDirs := [],
  food := ⟨0, 0⟩, score := 0, gameOver := false, started := true,
  ateOnLastStep := false, occupied := posSet initSnake, endedAt := none }

/-- The state after one tick from `runStart`: plain move right. -/
def runStartPost : GameState := { runStart with
  snake := [⟨4, 3⟩, ⟨3, 3⟩, ⟨2, 3⟩],
  occupied := posSet [⟨4, 3⟩, ⟨3, 3⟩, ⟨2, 3⟩] }

theorem toInt32_eq_self (n : Int) (h0 : 0 ≤ n) (h : n < 2 ^ 31) : toInt32 n = n := by
  have hp : (2 : ℤ) ^ 32 = 2 ^ 31 + 2 ^ 31 := by norm_num
  have h1 : (0 : ℤ) ≤ n + 2 ^ 31 := add_nonneg h0 (by positivity)
  have h2 : n + 2 ^ 31 < 2 ^ 32 := by linarith
  unfold toInt32
  rw [Int.emod_eq_of_lt h1 h2]
  ring

theorem jsTrunc_range (q : ℚ) (g : ℕ) (h0 : 0 ≤ q) (h1 : q < 1) (hg : 0 < g)
    (hg31 : g < 2 ^ 31) : 0 ≤ jsTrunc (q * g) ∧ jsTrunc (q * g) < (g : ℤ) := by
  have hgq : (0 : ℚ) < (g : ℚ) := by exact_mod_cast hg
  have hqg0 : (0 : ℚ) ≤ q * g := mul_nonneg h0 hgq.le
  have hlt : q * (g : ℚ) < g := by
    calc q * (g : ℚ) < 1 * g := mul_lt_mul_of_pos_right h1 hgq
    _ = g := one_mul _
  have hfl0 : (0 : ℤ) ≤ ⌊q * (g : ℚ)⌋ := Int.floor_nonneg.mpr hqg0
  have hflg : ⌊q * (g : ℚ)⌋ < (g : ℤ) := by
    rw [Int.floor_lt]; exact_mod_cast hlt
  have h31 : ⌊q * (g : ℚ)⌋ < 2 ^ 31 := lt_of_lt_of_le hflg (by exact_mod_cast hg31.le)
  have hnlt : ¬(q * (g : ℚ) < 0) := not_lt.mpr hqg0
  unfold jsTrunc
  rw [if_neg hnlt, toInt32_eq_self _ hfl0 h31]
  exact ⟨hfl0, hflg⟩

theorem spawnFood_not_mem (grid : ℕ) (occ : Finset Pos) (rands : List (ℚ × ℚ))
    (c : Pos) (h : spawnFood grid occ rands = some c) : c ∉ occ := by
  induction rands with
  | nil => simp [spawnFood] at h
  | cons r rs ih =>
    rw [spawnFood] at h
    split_ifs at h with hmem
    · exact ih h
    · obtain rfl : (⟨jsTrunc (r.1 * grid), jsTrunc (r.2 * grid)⟩ : Pos) = c :=
        by simpa using h
      exact hmem

theorem consume_fields (s : GameState) :
    (consumeDirectionQueue s).snake = s.snake ∧
    (consumeDirectionQueue s).occupied = s.occupied ∧
    (consumeDirectionQueue s).score = s.score ∧
    (consumeDirectionQueue s).food = s.food ∧
    (consumeDirectionQueue s).grid = s.grid ∧
    (consumeDirectionQueue s).gameOver = s.gameOver ∧
    (consumeDirectionQueue s).started = s.started ∧
    (consumeDirectionQueue s).ateOnLastStep = s.ateOnLastStep ∧
    (consumeDirectionQueue s).endedAt = s.endedAt := by
  cases h : s.queuedDirs <;> simp [consumeDirectionQueue, h]

theorem preStep_fields (s : GameState) :
    (preStep s).snake = s.snake ∧ (preStep s).occupied = s.occupied ∧
    (preStep s).score = s.score ∧ (preStep s).food = s.food ∧
    (preStep s).grid = s.grid ∧ (preStep s).gameOver = s.gameOver ∧
    (preStep s).started = s.started ∧ (preStep s).endedAt = s.endedAt := by
  cases h : s.queuedDirs <;> simp [preStep, consumeDirectionQueue, h]

theorem preStep_queue (s : GameState) :
    (preStep s).dir = (consumeDirectionQueue s).dir ∧
    (preStep s).queuedDirs = (consumeDirectionQueue s).queuedDirs := by
  cases h : s.queuedDirs <;> simp [preStep, consumeDirectionQueue, h]

theorem grow_fields (s : GameState) :
    (growGridIfNeeded s).dir = s.dir ∧
    (growGridIfNeeded s).queuedDirs = s.queuedDirs ∧
    (growGridIfNeeded s).score = s.score ∧
    (growGridIfNeeded s).food = s.food ∧
    (growGridIfNeeded s).gameOver = s.gameOver ∧
    (growGridIfNeeded s).started = s.started ∧
    (growGridIfNeeded s).ateOnLastStep = s.ateOnLastStep ∧
    (growGridIfNeeded s).snake.length = s.snake.length ∧
    (growGridIfNeeded s).endedAt = s.endedAt := by
  unfold growGridIfNeeded
  split <;> simp

theorem step_of_collides (rands : List (ℚ × ℚ)) (t : Nat) (s0 : GameState)
    (h : collides s0 = true) :
    step rands t s0 = some { preStep s0 with gameOver := true, endedAt := some t } := by
  simp [step, h]

theorem mem_of_getLast?_eq (l : List Pos) (a : Pos) (h : l.getLast? = some a) :
    a ∈ l := by
  have hx : a ∈ l.getLast? := by simp [h]
  obtain ⟨hne, ha⟩ := List.mem_getLast?_eq_getLast hx
  exact ha ▸ List.getLast_mem hne

theorem grow_grid_cases (s : GameState) :
    (growGridIfNeeded s).grid = s.grid ∨
    ((growGridIfNeeded s).grid = s.grid + 2 ∧
      (s.grid : ℚ) ^ 2 * (4 / 10) ≤ (s.snake.length : ℚ) ∧ s.grid < 36) := by
  unfold growGridIfNeeded
  split_ifs with h
  · exact Or.inr ⟨rfl, h.1, h.2⟩
  · exact Or.inl rfl

theorem step_cases (rands : List (ℚ × ℚ)) (t : Nat) (s0 s' : GameState)
    (h : step rands t s0 = some s') :
    (collides s0 = true ∧
      s' = { preStep s0 with gameOver := true, endedAt := some t }) ∨
    (collides s0 = false ∧ willEatFlag s0 = true ∧ ∃ f,
      spawnFood (eatState s0).grid (eatState s0).occupied rands = some f ∧
      s' = { eatState s0 with food := f, ateOnLastStep := true }) ∨
    (collides s0 = false ∧ willEatFlag s0 = false ∧ ∃ tl,
      (moveState s0).snake.getLast? = some tl ∧
      s' = { moveState s0 with
              snake := (moveState s0).snake.dropLast,
              occupied := (moveState s0).occupied.erase tl }) := by
  unfold step at h
  cases hc : collides s0 with
  | true =>
    rw [hc] at h
    simp only [if_true] at h
    refine Or.inl ⟨rfl, ?_⟩
    simpa using h.symm
  | false =>
    rw [hc] at h
    simp only [Bool.false_eq_true, if_false] at h
    cases he : willEatFlag s0 with
    | true =>
      rw [he] at h
      simp only [if_true] at h
      cases hsf : spawnFood (eatState s0).grid (eatState s0).occupied rands with
      | none => rw [hsf] at h; cases h
      | some f =>
        rw [hsf] at h
        refine Or.inr (Or.inl ⟨rfl, rfl, f, rfl, ?_⟩)
        simpa using h.symm
    | false =>
      rw [he] at h
      simp only [Bool.false_eq_true, if_false] at h
      cases hgl : (moveState s0).snake.getLast? with
      | none =>
        exfalso
        rw [moveState] at hgl
        simp at hgl
      | some tl =>
        rw [hgl] at h
        refine Or.inr (Or.inr ⟨rfl, rfl, tl, rfl, ?_⟩)
        simpa using h.symm

/-- C7: whenever `spawnFood` returns, the returned cell has integer
coordinates within `[0, gridSize)` on both axes and is not a member of
the occupancy set at the time of the call. The hypotheses say the grid
side is positive and below the int32 range (it is 8–36 in the program)
and that every random draw lies in `[0, 1)`, as `Math.random()`
guarantees. -/
theorem spawnFood_in_range_and_unoccupied (grid : ℕ) (occ : Finset Pos)
    (rands : List (ℚ × ℚ)) (c : Pos) (hg : 0 < grid) (hg31 : grid < 2 ^ 31)
    (hr : ∀ r ∈ rands, 0 ≤ r.1 ∧ r.1 < 1 ∧ 0 ≤ r.2 ∧ r.2 < 1)
    (h : spawnFood grid occ rands = some c) :
    0 ≤ c.x ∧ c.x < (grid : ℤ) ∧ 0 ≤ c.y ∧ c.y < (grid : ℤ) ∧ c ∉ occ := by
  induction rands with
  | nil => simp [spawnFood] at h
  | cons r rs ih =>
    rw [spawnFood] at h
    split_ifs at h with hmem
    · exact ih (fun a ha => hr a (List.mem_cons_of_mem _ ha)) h
    · obtain rfl : (⟨jsTrunc (r.1 * grid), jsTrunc (r.2 * grid)⟩ : Pos) = c := by
        simpa using h
      obtain ⟨h1, h2, h3, h4⟩ := hr r (List.mem_cons_self _ _)
      obtain ⟨hx0, hxg⟩ := jsTrunc_range r.1 grid h1 h2 hg hg31
      obtain ⟨hy0, hyg⟩ := jsTrunc_range r.2 grid h3 h4 hg hg31
      exact ⟨hx0, hxg, hy0, hyg, hmem⟩

/-- Witness for C7 at a concrete call: grid 8, the fresh snake's cells
occupied, draw `(1/2, 3/8)` yielding the cell `(4, 3)`. -/
theorem spawnFood_in_range_and_unoccupied_witness :
    0 ≤ (⟨4, 3⟩ : Pos).x ∧ (⟨4, 3⟩ : Pos).x < ((8 : ℕ) : ℤ) ∧
    0 ≤ (⟨4, 3⟩ : Pos).y ∧ (⟨4, 3⟩ : Pos).y < ((8 : ℕ) : ℤ) ∧
    (⟨4, 3⟩ : Pos) ∉ posSet initSnake :=
  spawnFood_in_range_and_unoccupied 8 (posSet initSnake) [(1/2, 3/8)] ⟨4, 3⟩
    (by norm_num) (by norm_num)
    (by
      intro r hrm
      simp only [List.mem_singleton] at hrm
      subst hrm
      norm_num)
    (by norm_num [spawnFood, jsTrunc, toInt32, posSet, initSnake])

/-- C2: with the occupancy set mirroring the snake, `isSelfCollision`
reports no collision when the candidate head is the current tail cell
and the move will not eat; it reports a collision when the candidate
head is the tail cell and the move will eat, and when the candidate
head is any other snake cell; a candidate head off the snake is never a
self collision. -/
theorem isSelfCollision_tail_exception (s : GameState) (nx ny : Int) (tl : Pos)
    (hocc : s.occupied = posSet s.snake) (htl : s.snake.getLast? = some tl) :
    (tl.x = nx ∧ tl.y = ny → isSelfCollision s nx ny false = false) ∧
    (tl.x = nx ∧ tl.y = ny → isSelfCollision s nx ny true = true) ∧
    (∀ we : Bool, (⟨nx, ny⟩ : Pos) ∈ s.snake → ¬(tl.x = nx ∧ tl.y = ny) →
      isSelfCollision s nx ny we = true) ∧
    (∀ we : Bool, (⟨nx, ny⟩ : Pos) ∉ s.snake → isSelfCollision s nx ny we = false) := by
  unfold isSelfCollision
  rw [htl]
  refine ⟨?_, ?_, ?_, ?_⟩
  · rintro ⟨hx, hy⟩
    simp [hx, hy]
  · rintro ⟨hx, hy⟩
    have htlmem : tl ∈ s.snake := mem_of_getLast?_eq _ _ htl
    have heq : (⟨nx, ny⟩ : Pos) = tl := by
      cases tl
      simp only at hx hy
      simp [hx, hy]
    have hmem : (⟨nx, ny⟩ : Pos) ∈ s.occupied := by
      rw [hocc]
      unfold posSet
      rw [List.mem_toFinset, heq]
      exact htlmem
    simp [hmem]
  · intro we hsnake hn
    have hmem : (⟨nx, ny⟩ : Pos) ∈ s.occupied := by
      rw [hocc]
      unfold posSet
      rw [List.mem_toFinset]
      exact hsnake
    cases we with
    | true => simp [hmem]
    | false =>
      rcases Decidable.em (tl.x = nx) with htx | htx
      · rcases Decidable.em (tl.y = ny) with hty | hty
        · exact absurd ⟨htx, hty⟩ hn
        · simp [hmem, hty]
      · simp [hmem, htx]
  · intro we hout
    have hmem : (⟨nx, ny⟩ : Pos) ∉ s.occupied := by
      rw [hocc]
      unfold posSet
      rw [List.mem_toFinset]
      exact hout
    simp only [hmem, decide_False]
    split <;> rfl

/-- Witness for C2: in `baseState` the tail is `(1,3)`; moving onto it
without eating is no collision, moving onto it while eating is a
collision, and moving onto the interior cell `(2,3)` is a collision. -/
theorem isSelfCollision_tail_exception_witness :
    isSelfCollision baseState 1 3 false = false ∧
    isSelfCollision baseState 1 3 true = true ∧
    isSelfCollision baseState 2 3 false = true :=
  ⟨(isSelfCollision_tail_exception baseState 1 3 ⟨1, 3⟩ (by decide) (by decide)).1
      ⟨rfl, rfl⟩,
   (isSelfCollision_tail_exception baseState 1 3 ⟨1, 3⟩ (by decide) (by decide)).2.1
      ⟨rfl, rfl⟩,
   (isSelfCollision_tail_exception baseState 2 3 ⟨1, 3⟩ (by decide) (by decide)).2.2.1
      false (by decide) (by decide)⟩

/-- C3: from a Playing state whose candidate head collides with a wall
or with the snake, `step()` returns, sets `gameOver`, records the end
timestamp, and leaves the snake, the occupancy set, the score, the food
cell and the grid size unchanged. -/
theorem step_collision_freezes (s : GameState) (rands : List (ℚ × ℚ)) (t : ℕ)
    (hstarted : s.started = true) (hplaying : s.gameOver = false)
    (hcol : collides s = true) :
    (step rands t s).isSome = true ∧
    ∀ s', step rands t s = some s' →
      s'.gameOver = true ∧ s'.endedAt = some t ∧ s'.snake = s.snake ∧
      s'.occupied = s.occupied ∧ s'.score = s.score ∧ s'.food = s.food ∧
      s'.grid = s.grid := by
  have hstep := step_of_collides rands t s hcol
  refine ⟨by rw [hstep]; rfl, ?_⟩
  intro s' hs'
  rw [hstep] at hs'
  obtain rfl : ({ preStep s with gameOver := true, endedAt := some t } : GameState) = s' := by
    simpa using hs'
  obtain ⟨h1, h2, h3, h4, h5, -⟩ := preStep_fields s
  exact ⟨rfl, rfl, h1, h2, h3, h4, h5⟩

/-- Witness for C3: `wallState`'s head at `(7,3)` moving right on the
8×8 grid collides with the wall at `x = 8`; the step returns with
`gameOver` and the frozen fields. -/
theorem step_collision_freezes_witness :
    collides wallState = true ∧ (step [] 5 wallState).isSome = true ∧
    ((step [] 5 wallState).map fun s =>
      (s.gameOver, decide (s.snake = wallState.snake), s.score, s.grid)) =
      some (true, true, 0, 8) :=
  ⟨by decide,
   (step_collision_freezes wallState [] 5 rfl rfl (by decide)).1,
   by decide⟩

/-- C5 counterexample: in `queuedState` the active direction is `(1,0)`
and `(0,1)` is queued; the candidate `(-1,0)` exactly reverses the
active direction, yet `queueDir` appends it (it is only checked against
the last queued direction), so the queued list changes. -/
theorem queueDir_reversal_counterexample :
    queuedState.dir = ⟨1, 0⟩ ∧
    (queuedState.dir.x + (⟨-1, 0⟩ : Pos).x = 0 ∧
      queuedState.dir.y + (⟨-1, 0⟩ : Pos).y = 0) ∧
    (queueDir queuedState ⟨-1, 0⟩).queuedDirs = [⟨0, 1⟩, ⟨-1, 0⟩] ∧
    (queueDir queuedState ⟨-1, 0⟩).queuedDirs ≠ queuedState.queuedDirs := by
  decide

/-- C5 amended: `queueDir` leaves the state unchanged when the candidate
exactly reverses the **most recently queued** direction (the active
direction only when the queue is empty, `lastDir`), and after any
sequence of `queueDir` calls starting from a queue of at most 2 entries
the queue never holds more than 2 entries. -/
theorem queueDir_lastdir_guard_and_capacity :
    (∀ (s : GameState) (nd : Pos),
      (lastDir s).x + nd.x = 0 ∧ (lastDir s).y + nd.y = 0 → queueDir s nd = s) ∧
    (∀ (s : GameState) (nds : List Pos), s.queuedDirs.length ≤ 2 →
      (nds.foldl queueDir s).queuedDirs.length ≤ 2) := by
  constructor
  · intro s nd h
    unfold queueDir
    rw [if_pos h]
  · intro s nds
    induction nds generalizing s with
    | nil => exact fun h => h
    | cons d ds ih =>
      intro h
      refine ih _ ?_
      unfold queueDir
      split_ifs with h1 h2 h3
      · exact h
      · exact h
      · exact h
      · show (s.queuedDirs ++ [d]).length ≤ 2
        simp only [List.length_append, List.length_singleton]
        omega

/-- Witness for the amended C5: with an empty queue, the reverse of the
active direction is rejected, and four queue attempts never push the
queue past 2 entries. -/
theorem queueDir_lastdir_guard_and_capacity_witness :
    queueDir baseState ⟨-1, 0⟩ = baseState ∧
    (([⟨0, 1⟩, ⟨1, 0⟩, ⟨0, 1⟩, ⟨1, 0⟩] : List Pos).foldl queueDir
      baseState).queuedDirs.length ≤ 2 :=
  ⟨queueDir_lastdir_guard_and_capacity.1 baseState ⟨-1, 0⟩ (by decide),
   queueDir_lastdir_guard_and_capacity.2 baseState _ (by decide)⟩

/-- C6: the grid size is untouched by the direction queue operations,
is monotonically non-decreasing under the growth controller and under
`step()`, changes only by the fixed increment 2 — and only when the
snake length reaches `0.4 · gridSize²` with the grid below 36 — and,
for the even grid sizes a run produces, never exceeds the ceiling 36. -/
theorem grid_growth_monotone_capped (s : GameState) :
    (∀ nd, (queueDir s nd).grid = s.grid) ∧
    (consumeDirectionQueue s).grid = s.grid ∧
    s.grid ≤ (growGridIfNeeded s).grid ∧
    ((growGridIfNeeded s).grid = s.grid ∨
      ((growGridIfNeeded s).grid = s.grid + 2 ∧
        (s.grid : ℚ) ^ 2 * (4 / 10) ≤ (s.snake.length : ℚ) ∧ s.grid < 36)) ∧
    (s.grid % 2 = 0 → s.grid ≤ 36 →
      (growGridIfNeeded s).grid % 2 = 0 ∧ (growGridIfNeeded s).grid ≤ 36) ∧
    (∀ rands t s', step rands t s = some s' →
      s.grid ≤ s'.grid ∧
      (s'.grid = s.grid ∨ (s'.grid = s.grid + 2 ∧ s.grid < 36)) ∧
      (s.grid % 2 = 0 → s.grid ≤ 36 → s'.grid ≤ 36)) := by
  have hpre : (preStep s).grid = s.grid := (preStep_fields s).2.2.2.2.1
  have hgrow := grow_grid_cases s
  refine ⟨?_, (consume_fields s).2.2.2.2.1, ?_, hgrow, ?_, ?_⟩
  · intro nd
    unfold queueDir
    split_ifs <;> rfl
  · rcases hgrow with h | ⟨h, -, -⟩ <;> omega
  · intro he h36
    rcases hgrow with h | ⟨h, -, h36g⟩
    · constructor <;> omega
    · constructor <;> omega
  · intro rands t s' hstep
    have hdisj : s'.grid = s.grid ∨ (s'.grid = s.grid + 2 ∧ s.grid < 36) := by
      rcases step_cases rands t s s' hstep with ⟨-, rfl⟩ | ⟨-, -, f, -, rfl⟩ |
        ⟨-, -, tl, -, rfl⟩
      · left
        show (preStep s).grid = s.grid
        exact hpre
      · have hM : ({ moveState s with score := (moveState s).score + 1 } : GameState).grid
            = s.grid := by
          show (preStep s).grid = s.grid
          exact hpre
        show (eatState s).grid = s.grid ∨ ((eatState s).grid = s.grid + 2 ∧ s.grid < 36)
        unfold eatState
        rcases grow_grid_cases { moveState s with score := (moveState s).score + 1 } with
          h | ⟨h, -, h36m⟩
        · left; omega
        · right; exact ⟨by omega, by omega⟩
      · left
        show (preStep s).grid = s.grid
        exact hpre
    refine ⟨?_, hdisj, ?_⟩
    · rcases hdisj with h | ⟨h, h2⟩ <;> omega
    · intro he h36
      rcases hdisj with h | ⟨h, h2⟩ <;> omega

/-- Witness for C6: `denseState` (snake length 26 on the 8×8 grid,
26 ≥ 0.4·64 = 25.6) satisfies the growth disjunction and the controller
keeps the grid even and at most 36. -/
theorem grid_growth_monotone_capped_witness :
    ((growGridIfNeeded denseState).grid = denseState.grid ∨
      ((growGridIfNeeded denseState).grid = denseState.grid + 2 ∧
        (denseState.grid : ℚ) ^ 2 * (4 / 10) ≤ (denseState.snake.length : ℚ) ∧
        denseState.grid < 36)) ∧
    ((growGridIfNeeded denseState).grid % 2 = 0 ∧
      (growGridIfNeeded denseState).grid ≤ 36) :=
  ⟨(grid_growth_monotone_capped denseState).2.2.2.1,
   (grid_growth_monotone_capped denseState).2.2.2.2.1 (by decide) (by decide)⟩

/-- C8: on a non-collision tick, `step()` increases snake length by
exactly 1 and score by exactly 1 when the candidate head equals the
food cell, and leaves both unchanged otherwise. -/
theorem step_eat_grows (s : GameState) (rands : List (ℚ × ℚ)) (t : ℕ)
    (s' : GameState) (hnocol : collides s = false)
    (hstep : step rands t s = some s') :
    (willEatFlag s = true →
      s'.snake.length = s.snake.length + 1 ∧ s'.score = s.score + 1) ∧
    (willEatFlag s = false →
      s'.snake.length = s.snake.length ∧ s'.score = s.score) := by
  have hpresnake : (preStep s).snake = s.snake := (preStep_fields s).1
  have hprescore : (preStep s).score = s.score := (preStep_fields s).2.2.1
  rcases step_cases rands t s s' hstep with ⟨hc, -⟩ | ⟨-, he, f, -, rfl⟩ |
    ⟨-, he, tl, -, rfl⟩
  · rw [hc] at hnocol; cases hnocol
  · refine ⟨fun _ => ⟨?_, ?_⟩, fun hne => by rw [he] at hne; cases hne⟩
    · show (eatState s).snake.length = s.snake.length + 1
      unfold eatState
      rw [(grow_fields _).2.2.2.2.2.2.2.1]
      show ((candidateHead s :: (preStep s).snake).length) = s.snake.length + 1
      rw [List.length_cons, hpresnake]
    · show (eatState s).score = s.score + 1
      unfold eatState
      rw [(grow_fields _).2.2.1]
      show (moveState s).score + 1 = s.score + 1
      show (preStep s).score + 1 = s.score + 1
      rw [hprescore]
  · refine ⟨fun hee => ?_, fun _ => ⟨?_, ?_⟩⟩
    · rw [he] at hee
      cases hee
    · show ((moveState s).snake.dropLast).length = s.snake.length
      rw [List.length_dropLast]
      show (candidateHead s :: (preStep s).snake).length - 1 = s.snake.length
      rw [List.length_cons, hpresnake]
      omega
    · show (moveState s).score = s.score
      exact hprescore

/-- Witness for C8, the spec's scenario: snake `[(3,3),(2,3),(1,3)]`,
direction `(1,0)`, food `(4,3)`; one step yields the grown snake
`[(4,3),(3,3),(2,3),(1,3)]`, score 1, food relocated off the new snake
(next draw `(0,0)`), and no grid growth. -/
theorem step_eat_grows_witness :
    step [(0, 0)] 1 eatScenario = some eatScenarioPost ∧
    eatScenarioPost.snake.length = eatScenario.snake.length + 1 ∧
    eatScenarioPost.score = eatScenario.score + 1 ∧
    eatScenarioPost.snake = [⟨4, 3⟩, ⟨3, 3⟩, ⟨2, 3⟩, ⟨1, 3⟩] ∧
    eatScenarioPost.score = 1 ∧
    eatScenarioPost.food ∉ posSet eatScenarioPost.snake ∧
    eatScenarioPost.grid = eatScenario.grid := by
  have hstep : step [(0, 0)] 1 eatScenario = some eatScenarioPost := by
    norm_num [step, preStep, consumeDirectionQueue, candidateHead, nextHead,
      willEatFlag, collides, isWallCollision, isSelfCollision, growGridIfNeeded,
      moveState, eatState, spawnFood, jsTrunc, toInt32, posSet, initSnake,
      eatScenario, eatScenarioPost, baseState]
  obtain ⟨hlen, hscore⟩ :=
    (step_eat_grows eatScenario [(0, 0)] 1 eatScenarioPost (by decide) hstep).1
      (by decide)
  exact ⟨hstep, hlen, hscore, by decide, by decide, by decide, by decide⟩

/-- C9 counterexample: the welcome-idle run (`resetToWelcome`) starts
the grid at 10, while a player-initiated run (`resetGame`) starts it at
8 — the two run starts do not use the same fixed initial size. -/
theorem initial_grid_sizes_differ :
    (resetGame [(0, 0)]).map GameState.grid = some 8 ∧
    (resetToWelcome [(0, 0)]).map GameState.grid = some 10 := by
  constructor <;>
    norm_num [resetGame, resetToWelcome, spawnFood, jsTrunc, toInt32, posSet,
      initSnake]

/-- C9 amended: every player-initiated start or restart (`resetGame`)
initializes the grid to the fixed size 8; the initial welcome-idle run
(`resetToWelcome`) initializes it to the different fixed size 10. -/
theorem run_start_grid_sizes (rands : List (ℚ × ℚ)) (s : GameState) :
    (resetGame rands = some s → s.grid = 8) ∧
    (resetToWelcome rands = some s → s.grid = 10) := by
  constructor
  · intro h
    unfold resetGame at h
    cases hsf : spawnFood 8 (posSet initSnake) rands with
    | none => rw [hsf] at h; cases h
    | some f =>
      rw [hsf] at h
      obtain rfl : _ = s := by exact Option.some.inj h
      rfl
  · intro h
    unfold resetToWelcome at h
    cases hsf : spawnFood 10 (posSet initSnake) rands with
    | none => rw [hsf] at h; cases h
    | some f =>
      rw [hsf] at h
      obtain rfl : _ = s := by exact Option.some.inj h
      rfl

/-- Witness for the amended C9 at the concrete draw `(0,0)`. -/
theorem run_start_grid_sizes_witness : runStart.grid = 8 :=
  (run_start_grid_sizes [(0, 0)] runStart).1
    (by norm_num [resetGame, spawnFood, jsTrunc, toInt32, posSet, initSnake,
      runStart])

/-- C4 counterexample: a Playing→GameOver transition (collision step
from `scoredWallState`, score 5 on a 12×12 grid) reinitializes nothing:
the resulting state still has score 5, grid 12 and the old snake, not
the fresh score 0 / grid 8 / fresh snake of a reinitialized state. -/
theorem gameover_transition_does_not_reinitialize :
    scoredWallState.started = true ∧ scoredWallState.gameOver = false ∧
    ((step [] 7 scoredWallState).map fun s =>
      (s.gameOver, s.score, s.grid, decide (s.snake = initSnake),
        decide (s.queuedDirs = []))) = some (true, 5, 12, false, true) := by
  refine ⟨rfl, rfl, ?_⟩
  decide

/-- C4 amended: the start and restart transitions (`resetGame`, used for
both Welcome→Playing and GameOver→Playing) fully reinitialize snake,
grid, score, direction queue, food and occupancy set — in particular
after a restart the score is 0, the phase is Playing, the grid is at
its initial size 8 and the occupancy set equals the fresh snake's
cells, with the food off the snake; the Playing→GameOver collision
transition instead freezes snake, occupancy set, score, food and grid
unchanged. -/
theorem reset_reinitializes_collision_freezes :
    (∀ rands s, resetGame rands = some s →
      s.score = 0 ∧ s.gameOver = false ∧ s.started = true ∧ s.grid = 8 ∧
      s.snake = initSnake ∧ s.queuedDirs = [] ∧ s.dir = ⟨1, 0⟩ ∧
      s.occupied = posSet initSnake ∧ s.occupied = posSet s.snake ∧
      s.food ∉ s.occupied ∧ s.endedAt = none) ∧
    (∀ s rands t s', collides s = true → step rands t s = some s' →
      s'.snake = s.snake ∧ s'.occupied = s.occupied ∧ s'.score = s.score ∧
      s'.food = s.food ∧ s'.grid = s.grid) := by
  constructor
  · intro rands s h
    unfold resetGame at h
    cases hsf : spawnFood 8 (posSet initSnake) rands with
    | none => rw [hsf] at h; cases h
    | some f =>
      rw [hsf] at h
      obtain rfl : _ = s := by exact Option.some.inj h
      exact ⟨rfl, rfl, rfl, rfl, rfl, rfl, rfl, rfl, rfl,
        spawnFood_not_mem _ _ _ _ hsf, rfl⟩
  · intro s rands t s' hc hs
    rw [step_of_collides rands t s hc] at hs
    obtain rfl : ({ preStep s with gameOver := true, endedAt := some t } : GameState)
        = s' := by simpa using hs
    obtain ⟨h1, h2, h3, h4, h5, -⟩ := preStep_fields s
    exact ⟨h1, h2, h3, h4, h5⟩

/-- Witness for the amended C4: the concrete restart with draw `(0,0)`
produces the fully reinitialized `runStart`, and the concrete collision
step from `scoredWallState` freezes its fields. -/
theorem reset_reinitializes_collision_freezes_witness :
    (runStart.score = 0 ∧ runStart.gameOver = false ∧ runStart.started = true ∧
      runStart.grid = 8 ∧ runStart.snake = initSnake ∧ runStart.queuedDirs = [] ∧
      runStart.dir = ⟨1, 0⟩ ∧ runStart.occupied = posSet initSnake ∧
      runStart.occupied = posSet runStart.snake ∧ runStart.food ∉ runStart.occupied ∧
      runStart.endedAt = none) ∧
    collides scoredWallState = true :=
  ⟨reset_reinitializes_collision_freezes.1 [(0, 0)] runStart
      (by norm_num [resetGame, spawnFood, jsTrunc, toInt32, posSet, initSnake,
        runStart]),
   by decide⟩

/-- C1 (refuted by the code): along a run reachable from `resetGame` —
eat at `(4,3)`, then turn down, left and up so the head moves onto the
cell the tail vacates in the same tick — the tick that moves the head
onto the just-vacated tail cell leaves the occupancy set missing the
new head cell `(3,3)`: immediately after `step()` returns, the
occupancy set does **not** equal the set of snake cells (the source
adds the head key and then deletes the identical popped-tail key). -/
theorem occupancy_desync_after_tail_chase :
    (tailChaseTrace.map fun s =>
      (decide ((⟨3, 3⟩ : Pos) ∈ s.snake), decide ((⟨3, 3⟩ : Pos) ∈ s.occupied),
        decide (s.occupied = posSet s.snake))) = some (true, false, false) := by
  norm_num [tailChaseTrace, resetGame, step, preStep, consumeDirectionQueue,
    candidateHead, nextHead, willEatFlag, collides, isWallCollision,
    isSelfCollision, growGridIfNeeded, moveState, eatState, queueDir, lastDir,
    spawnFood, jsTrunc, toInt32, posSet, initSnake]
  decide

theorem dirChain_getLast (s : GameState) :
    (dirChain s).getLast? = some (lastDir s) := by
  unfold dirChain lastDir
  cases hqd : s.queuedDirs with
  | nil => simp
  | cons d rest =>
    have hne : (d :: rest) ≠ [] := List.cons_ne_nil d rest
    have hx : (d :: rest).getLast? = some ((d :: rest).getLast hne) :=
      List.getLast?_eq_getLast_of_ne_nil hne
    rw [List.getLast?_cons_cons, hx]
    simp

theorem dirInv_queueDir (s : GameState) (nd : Pos) (h : dirInv s)
    (hu : isUnitDir nd) : dirInv (queueDir s nd) := by
  obtain ⟨hd, hq, hc⟩ := h
  unfold queueDir
  split_ifs with h1 h2 h3
  · exact ⟨hd, hq, hc⟩
  · exact ⟨hd, hq, hc⟩
  · exact ⟨hd, hq, hc⟩
  · refine ⟨hd, ?_, ?_⟩
    · intro d hdm
      rcases List.mem_append.mp hdm with hm | hm
      · exact hq d hm
      · rw [List.mem_singleton.mp hm]
        exact hu
    · show List.Chain' noReverse (s.dir :: (s.queuedDirs ++ [nd]))
      have hsplit : s.dir :: (s.queuedDirs ++ [nd]) =
          (s.dir :: s.queuedDirs) ++ [nd] := by simp
      rw [hsplit]
      refine List.Chain'.append hc (List.chain'_singleton nd) ?_
      intro x hx y hy
      have hxl : lastDir s = x := by
        have hgl := dirChain_getLast s
        unfold dirChain at hgl
        rw [hgl] at hx
        simpa using hx
      have hyn : nd = y := by simpa using hy
      rw [← hxl, ← hyn]
      exact h1

theorem dirInv_consume (s : GameState) (h : dirInv s) :
    dirInv (consumeDirectionQueue s) := by
  obtain ⟨hd, hq, hc⟩ := h
  cases hqd : s.queuedDirs with
  | nil =>
    have heq : consumeDirectionQueue s = s := by
      simp [consumeDirectionQueue, hqd]
    rw [heq]
    exact ⟨hd, hq, hc⟩
  | cons d rest =>
    have heq : consumeDirectionQueue s = { s with dir := d, queuedDirs := rest } := by
      simp [consumeDirectionQueue, hqd]
    rw [heq]
    have hc2 : List.Chain' noReverse (s.dir :: d :: rest) := by
      unfold dirChain at hc
      rw [hqd] at hc
      exact hc
    refine ⟨?_, ?_, ?_⟩
    · exact hq d (by rw [hqd]; exact List.mem_cons_self d rest)
    · intro e he
      refine hq e ?_
      rw [hqd]
      exact List.mem_cons_of_mem _ he
    · show List.Chain' noReverse (d :: rest)
      exact (List.chain'_cons.mp hc2).2

theorem dirInv_preStep (s : GameState) (h : dirInv s) : dirInv (preStep s) :=
  dirInv_consume { s with ateOnLastStep := false } ⟨h.1, h.2.1, h.2.2⟩

theorem eatState_dir (s : GameState) : (eatState s).dir = (preStep s).dir := by
  unfold eatState
  rw [(grow_fields _).1]
  rfl

theorem eatState_queuedDirs (s : GameState) :
    (eatState s).queuedDirs = (preStep s).queuedDirs := by
  unfold eatState
  rw [(grow_fields _).2.1]
  rfl

theorem dirInv_step (rands : List (ℚ × ℚ)) (t : ℕ) (s s' : GameState)
    (h : dirInv s) (hs : step rands t s = some s') : dirInv s' := by
  have hpre := dirInv_preStep s h
  rcases step_cases rands t s s' hs with ⟨-, rfl⟩ | ⟨-, -, f, -, rfl⟩ |
    ⟨-, -, tl, -, rfl⟩
  · exact ⟨hpre.1, hpre.2.1, hpre.2.2⟩
  · refine ⟨?_, ?_, ?_⟩
    · show isUnitDir (eatState s).dir
      rw [eatState_dir]
      exact hpre.1
    · show ∀ d ∈ (eatState s).queuedDirs, isUnitDir d
      rw [eatState_queuedDirs]
      exact hpre.2.1
    · show List.Chain' noReverse ((eatState s).dir :: (eatState s).queuedDirs)
      rw [eatState_dir, eatState_queuedDirs]
      exact hpre.2.2
  · exact ⟨hpre.1, hpre.2.1, hpre.2.2⟩

theorem dirInv_fresh (g : ℕ) (st : Bool) (f : Pos) :
    dirInv {
      grid := g, snake := initSnake, dir := ⟨1, 0⟩, queuedDirs := [],
      food := f, score := 0, gameOver := false, started := st,
      ateOnLastStep := false, occupied := posSet initSnake, endedAt := none } := by
  refine ⟨Or.inl rfl, ?_, ?_⟩
  · intro d hd
    exact absurd hd (List.not_mem_nil d)
  · exact List.chain'_singleton _

theorem reachable_dirInv (s : GameState) (h : Reachable s) : dirInv s := by
  induction h with
  | welcome rands s h =>
    unfold resetToWelcome at h
    cases hsf : spawnFood 10 (posSet initSnake) rands with
    | none => rw [hsf] at h; cases h
    | some f =>
      rw [hsf] at h
      obtain rfl : _ = s := Option.some.inj h
      exact dirInv_fresh 10 false f
  | start rands s h =>
    unfold resetGame at h
    cases hsf : spawnFood 8 (posSet initSnake) rands with
    | none => rw [hsf] at h; cases h
    | some f =>
      rw [hsf] at h
      obtain rfl : _ = s := Option.some.inj h
      exact dirInv_fresh 8 true f
  | input s nd h hu ih => exact dirInv_queueDir s nd ih hu
  | tick rands t s s' h hs ih => exact dirInv_step rands t s s' ih hs

/-- C10: along any reachable state, the active direction used by a tick
never exactly reverses the active direction of the previous tick — the
component-wise sum of the two directions is never `(0,0)` — even when
two turns were buffered between the ticks. -/
theorem active_direction_never_reverses (s s' : GameState)
    (rands : List (ℚ × ℚ)) (t : ℕ) (hr : Reachable s)
    (hstep : step rands t s = some s') :
    ¬(s.dir.x + s'.dir.x = 0 ∧ s.dir.y + s'.dir.y = 0) := by
  have hinv := reachable_dirInv s hr
  have hdir : s'.dir = (preStep s).dir := by
    rcases step_cases rands t s s' hstep with ⟨-, rfl⟩ | ⟨-, -, f, -, rfl⟩ |
      ⟨-, -, tl, -, rfl⟩
    · rfl
    · show (eatState s).dir = (preStep s).dir
      exact eatState_dir s
    · rfl
  rw [hdir]
  cases hqd : s.queuedDirs with
  | nil =>
    have heq : (preStep s).dir = s.dir := by
      simp [preStep, consumeDirectionQueue, hqd]
    rw [heq]
    rcases hinv.1 with h | h | h | h <;> rw [h] <;> decide
  | cons d rest =>
    have heq : (preStep s).dir = d := by
      simp [preStep, consumeDirectionQueue, hqd]
    rw [heq]
    have hc := hinv.2.2
    unfold dirChain at hc
    rw [hqd] at hc
    exact (List.chain'_cons.mp hc).1

/-- Witness for C10: the reachable `runStart` state stepped once — the
new active direction `(1,0)` does not reverse the previous `(1,0)`. -/
theorem active_direction_never_reverses_witness :
    ¬(runStart.dir.x + runStartPost.dir.x = 0 ∧
      runStart.dir.y + runStartPost.dir.y = 0) :=
  active_direction_never_reverses runStart runStartPost [] 1
    (Reachable.start [(0, 0)] runStart
      (by norm_num [resetGame, spawnFood, jsTrunc, toInt32, posSet, initSnake,
        runStart]))
    (by
      norm_num [step, preStep, consumeDirectionQueue, candidateHead, nextHead,
        willEatFlag, collides, isWallCollision, isSelfCollision,
        growGridIfNeeded, moveState, eatState, spawnFood, jsTrunc, toInt32,
        posSet, initSnake, runStart, runStartPost]
      decide)

end ChilledSnake
